import Mathlib

/-!
Formal model of the Personal Library Manager (src/index.py).

The program keeps a collection of five-field book records in a CSV file
and offers add / list / search / delete / report / export / json-import
operations over it.  We embed the record type, the storage adapter and
the command handlers as executable Lean functions and prove the spec's
claims about them.

Modelling conventions:
  * Python strings are Lean `String`s; `str.strip`, `str.lower` and the
    substring test `in` are modelled over `List Char` (ASCII whitespace
    and ASCII case folding; Python's extra Unicode cases are out of
    scope for the data this program handles).
  * `int(...)` and `float(...)` are modelled by exact parsers `pyInt`
    and `pyFloat`; `float` arithmetic is idealised as exact rational
    arithmetic (numeric-literal underscores and the special tokens
    inf/nan are not modelled).
  * Interactive prompts are modelled by passing the list of user input
    lines; input exhaustion (EOFError in Python) yields `none`.
  * The CSV store is `Option (List (List String))`: `none` is a missing
    file, `some rows` the file's rows (header row included).  CSV
    quoting is abstracted away (the csv module's encode/decode is an
    inverse pair on field lists).  The program only ever writes the
    fixed five-name header, so stores are assumed to carry it.
-/

/-- Python whitespace characters stripped by `str.strip()` (ASCII part). -/
def pySpaceChars : List Char := [' ', '\t', '\n', '\r', Char.ofNat 11, Char.ofNat 12]

def pyIsSpace (c : Char) : Bool := pySpaceChars.contains c

/-- Model of Python `str.strip()`. -/
def pyStrip (s : String) : String :=
  String.mk (((s.data.dropWhile pyIsSpace).reverse.dropWhile pyIsSpace).reverse)

/-- Model of Python `str.lower()` (ASCII case folding). -/
def pyLower (s : String) : String :=
  String.mk (s.data.map Char.toLower)

/-- Is `needle` a prefix of `hay`?  Helper for the substring test. -/
def isPrefixList : List Char → List Char → Bool
  | [], _ => true
  | _ :: _, [] => false
  | c :: cs, d :: ds => c = d && isPrefixList cs ds

/-- Is `needle` a contiguous sublist of `hay`? -/
def isSubList (needle : List Char) : List Char → Bool
  | [] => needle.isEmpty
  | d :: ds => isPrefixList needle (d :: ds) || isSubList needle ds

/-- Model of Python's substring test `needle in hay` on strings. -/
def isSubstr (needle hay : String) : Bool :=
  isSubList needle.data hay.data

/-- Numeric value of a list of decimal digit characters. -/
def digitsVal (cs : List Char) : ℕ :=
  cs.foldl (fun a c => a * 10 + (c.toNat - '0'.toNat)) 0

/-- Parse a nonempty all-digit character list as an integer. -/
def pyIntDigits (ds : List Char) : Option ℤ :=
  if !ds.isEmpty && ds.all Char.isDigit then some ((digitsVal ds : ℕ) : ℤ) else none

/-- Model of Python `int(s)` on strings: optional surrounding whitespace,
optional sign, one or more decimal digits. -/
def pyInt (s : String) : Option ℤ :=
  match (pyStrip s).data with
  | '+' :: rest => pyIntDigits rest
  | '-' :: rest => (pyIntDigits rest).map (fun n => -n)
  | cs => pyIntDigits cs

/-- Exponent suffix of a float literal: empty, or `e`/`E`, optional sign,
one or more digits. -/
def expPart : List Char → Option ℤ
  | [] => some 0
  | c :: rest =>
    if c = 'e' ∨ c = 'E' then
      match rest with
      | '+' :: ds =>
        if !ds.isEmpty && ds.all Char.isDigit then some ((digitsVal ds : ℕ) : ℤ) else none
      | '-' :: ds =>
        if !ds.isEmpty && ds.all Char.isDigit then some (-((digitsVal ds : ℕ) : ℤ)) else none
      | ds =>
        if !ds.isEmpty && ds.all Char.isDigit then some ((digitsVal ds : ℕ) : ℤ) else none
    else none

/-- Unsigned part of a float literal: digits, optional point and more
digits (at least one digit overall), optional exponent.  Returns
(mantissa digits value, number of fraction digits, exponent). -/
def pyFloatUnsigned (cs : List Char) : Option (ℕ × ℕ × ℤ) :=
  let intDs := cs.takeWhile Char.isDigit
  let r1 := cs.dropWhile Char.isDigit
  match r1 with
  | '.' :: r2 =>
    let fracDs := r2.takeWhile Char.isDigit
    let r3 := r2.dropWhile Char.isDigit
    if intDs.isEmpty && fracDs.isEmpty then none
    else (expPart r3).map (fun e => (digitsVal (intDs ++ fracDs), fracDs.length, e))
  | _ =>
    if intDs.isEmpty then none
    else (expPart r1).map (fun e => (digitsVal intDs, 0, e))

/-- Combine sign, mantissa, fraction length and exponent into a scaled
integer `(n, d)` denoting the value `n / 10 ^ d`. -/
def scaledDec (neg : Bool) (m f : ℕ) (e : ℤ) : ℤ × ℕ :=
  let sm : ℤ := if neg then -(m : ℤ) else (m : ℤ)
  if f ≤ e then (sm * 10 ^ (e - f).toNat, 0) else (sm, ((f : ℤ) - e).toNat)

/-- Model of Python `float(s)` on strings, as an exact scaled decimal. -/
def pyFloatPair (s : String) : Option (ℤ × ℕ) :=
  match (pyStrip s).data with
  | '+' :: rest => (pyFloatUnsigned rest).map (fun p => scaledDec false p.1 p.2.1 p.2.2)
  | '-' :: rest => (pyFloatUnsigned rest).map (fun p => scaledDec true p.1 p.2.1 p.2.2)
  | cs => (pyFloatUnsigned cs).map (fun p => scaledDec false p.1 p.2.1 p.2.2)

/-- Rational value of a scaled decimal. -/
def decValue (p : ℤ × ℕ) : ℚ := (p.1 : ℚ) / 10 ^ p.2

/-- Model of Python `float(s)` as an exact rational. -/
def pyFloat (s : String) : Option ℚ := (pyFloatPair s).map decValue

/-- Drop trailing zero decimals: `(m, e)` denotes `m / 10 ^ e`. -/
def stripZeros : ℤ → ℕ → ℤ × ℕ
  | m, 0 => (m, 0)
  | m, e + 1 => if m % 10 = 0 then stripZeros (m / 10) e else (m, e + 1)

/-- Model of Python `str(x)` on a float of value `m / 10 ^ e`: shortest
decimal with at least one fractional digit (exponent display for very
large or small magnitudes is out of scope). -/
def pyFloatStr (m : ℤ) (e : ℕ) : String :=
  let p := stripZeros m e
  if p.2 = 0 then toString p.1 ++ ".0"
  else
    let ds := (toString p.1.natAbs).data
    let padded := List.replicate (p.2 + 1 - ds.length) '0' ++ ds
    let ip := padded.take (padded.length - p.2)
    let fp := padded.drop (padded.length - p.2)
    (if p.1 < 0 then "-" else "") ++ String.mk ip ++ "." ++ String.mk fp

/-- A book record: the five CSV fields, all stored as text. -/
structure Book where
  Title : String
  Author : String
  Year : String
  Genre : String
  Rating : String
deriving DecidableEq

/-- The CSV header row written by the program. -/
def header : List String := ["Title", "Author", "Year", "Genre", "Rating"]

/-- CSV row of a record, in header order. -/
def rowOfBook (b : Book) : List String :=
  [b.Title, b.Author, b.Year, b.Genre, b.Rating]

/-- Record read from a CSV data row (rows are five fields wide in any
store this program writes). -/
def bookOfRow (r : List String) : Book :=
  ⟨r.getD 0 "", r.getD 1 "", r.getD 2 "", r.getD 3 "", r.getD 4 ""⟩

/-- The persistent store: `none` when `library.csv` does not exist,
otherwise the file's rows, header first. -/
abbrev Store := Option (List (List String))

/-- Model of `load_books`: read every data row, or create a header-only
file and return the empty collection when the file is missing. -/
def load_books : Store → Store × List Book
  | none => (some [header], [])
  | some file => (some file, (file.drop 1).map bookOfRow)

/-- Model of `save_books`: rewrite the store from scratch, header row
followed by one row per record. -/
def save_books (books : List Book) : Store :=
  some (header :: books.map rowOfBook)

/-! Add: interactive prompts of `add_book`, modelled over input lines. -/

/-- Required-field prompt loop (Title, Author): re-prompt until the
stripped input is nonempty. -/
def req_field : List String → Option (String × List String)
  | [] => none
  | i :: rest => if pyStrip i = "" then req_field rest else some (pyStrip i, rest)

/-- The Python `year` variable of `add_book`: initialised to the string
`''`, but assigned the raw integer before the range check. -/
inductive YearVal where
  | strv (s : String)
  | intv (n : ℤ)
deriving DecidableEq

/-- What the csv writer persists for a `year` value: integers are
coerced to their decimal string. -/
def yearPersist : YearVal → String
  | .strv s => s
  | .intv n => toString n

/-- The Year prompt loop of `add_book`, exactly as coded: the parsed
integer is stored into `year` before the range check, and the
out-of-range branch does not reset it. -/
def year_loop (cy : ℤ) : YearVal → List String → Option (String × List String)
  | _, [] => none
  | y, i :: rest =>
    let s := pyStrip i
    if s = "" then some (yearPersist y, rest)
    else
      match pyInt s with
      | none => year_loop cy y rest
      | some n =>
        if n < 0 ∨ cy < n then year_loop cy (.intv n) rest
        else some (toString n, rest)

/-- The Rating prompt loop of `add_book`: empty input keeps the rating
unrated, otherwise re-prompt until a parseable number in [0, 5], which
is stored as `str(float(...))`. -/
def rating_loop : List String → Option (String × List String)
  | [] => none
  | i :: rest =>
    let s := pyStrip i
    if s = "" then some ("", rest)
    else
      match pyFloatPair s with
      | none => rating_loop rest
      | some p =>
        if 0 ≤ decValue p ∧ decValue p ≤ 5 then some (pyFloatStr p.1 p.2, rest)
        else rating_loop rest

/-- Model of `add_book`: collect the five fields from the input lines,
append the record and persist.  `cy` is the injected wall-clock year. -/
def add_book (cy : ℤ) (store : Store) (inputs : List String) : Option (Book × Store) :=
  let lb := load_books store
  match req_field inputs with
  | none => none
  | some (title, r1) =>
    match req_field r1 with
    | none => none
    | some (author, r2) =>
      match year_loop cy (.strv "") r2 with
      | none => none
      | some (year, r3) =>
        match r3 with
        | [] => none
        | g :: r4 =>
          match rating_loop r4 with
          | none => none
          | some (rating, _) =>
            let bk : Book := ⟨title, author, year, pyStrip g, rating⟩
            some (bk, save_books (lb.2 ++ [bk]))

/-! List and Search. -/

/-- Model of `list_books`: load and display every record; the store is
only read. -/
def list_books (store : Store) : Store × List Book :=
  load_books store

/-- The five-field match test of `search_books` (the term is the
already stripped and lowered input). -/
def search_match (term : String) (b : Book) : Bool :=
  isSubstr term (pyLower b.Title) || isSubstr term (pyLower b.Author) ||
  isSubstr term (pyLower b.Year) || isSubstr term (pyLower b.Genre) ||
  isSubstr term (pyLower b.Rating)

/-- The match list of `search_books` for a raw input term. -/
def search_matches (raw : String) (books : List Book) : List Book :=
  books.filter (search_match (pyLower (pyStrip raw)))

/-- Model of `search_books`: load, filter on all five fields, display
the matches; the store is only read. -/
def search_books (raw : String) (store : Store) : Store × List Book :=
  let lb := load_books store
  (lb.1, search_matches raw lb.2)

/-! Delete. -/

/-- The match list of `delete_book`: Title-only substring filter. -/
def delete_matches (raw : String) (books : List Book) : List Book :=
  books.filter (fun b => isSubstr (pyLower (pyStrip raw)) (pyLower b.Title))

/-- Split a character list at commas (model of `str.split(',')`). -/
def splitCommaAux (acc : List Char) : List Char → List String
  | [] => [String.mk acc.reverse]
  | c :: rest =>
    if c = ',' then String.mk acc.reverse :: splitCommaAux [] rest
    else splitCommaAux (c :: acc) rest

/-- Model of Python `s.split(',')`: splits at every comma, keeping
empty tokens. -/
def pySplitComma (s : String) : List String :=
  splitCommaAux [] s.data

/-- Parse every comma-separated token as an integer; any failure
rejects the whole input (Python's list comprehension raises). -/
def intTokens : List String → Option (List ℤ)
  | [] => some []
  | t :: rest =>
    match pyInt t, intTokens rest with
    | some n, some ns => some (n :: ns)
    | _, _ => none

/-- Outcome of one iteration of `delete_book`'s selection loop. -/
inductive DelChoice where
  | cancelled
  | badInput
  | noValid
  | deleted (remaining : List Book) (reported : ℕ)
deriving DecidableEq

/-- One iteration of `delete_book`'s selection loop on a raw input
line, given the full collection and the match list. -/
def delete_choice (books matchList : List Book) (raw : String) : DelChoice :=
  let c := pyLower (pyStrip raw)
  if c = "cancel" then .cancelled
  else if c = "all" then
    .deleted (books.filter (fun b => !decide (b ∈ matchList))) matchList.length
  else
    match intTokens (pySplitComma c) with
    | none => .badInput
    | some ns =>
      let indices := ns.map (fun n => n - 1)
      let valid := indices.filter (fun i => decide (0 ≤ i) && decide (i < (matchList.length : ℤ)))
      if valid = [] then .noValid
      else
        let toDel := valid.filterMap (fun i => matchList.get? i.toNat)
        .deleted (books.filter (fun b => !decide (b ∈ toDel))) valid.length

/-- The selection loop of `delete_book`: re-prompt on bad input or no
valid index; persist only when a deletion happens.  Returns the final
store and the reported deletion count (`none` for cancel). -/
def delete_loop (store : Store) (books matchList : List Book) : List String → Option (Store × Option ℕ)
  | [] => none
  | raw :: rest =>
    match delete_choice books matchList raw with
    | .cancelled => some (store, none)
    | .badInput => delete_loop store books matchList rest
    | .noValid => delete_loop store books matchList rest
    | .deleted remaining n => some (save_books remaining, some n)

/-! Report. -/

/-- One step of the rating fold of `generate_reports`: non-empty,
parseable ratings contribute their value and bump the count. -/
def rating_step (acc : ℚ × ℕ) (b : Book) : ℚ × ℕ :=
  if b.Rating = "" then acc
  else
    match pyFloat b.Rating with
    | some v => (acc.1 + v, acc.2 + 1)
    | none => acc

/-- Running total and count of parseable ratings, as coded. -/
def rating_data (books : List Book) : ℚ × ℕ :=
  books.foldl rating_step (0, 0)

/-- The count of rated books reported by `generate_reports`. -/
def rated_count (books : List Book) : ℕ :=
  (rating_data books).2

/-- The average rating reported by `generate_reports` (0 when no book
has a parseable rating). -/
def avg_rating (books : List Book) : ℚ :=
  let p := rating_data books
  if 0 < p.2 then p.1 / (p.2 : ℚ) else 0

/-- The parseable, non-empty rating values of a collection. -/
def rated_list (books : List Book) : List ℚ :=
  books.filterMap (fun b => if b.Rating = "" then none else pyFloat b.Rating)

/-- The parseable year values of a collection, as collected by
`generate_reports`. -/
def years_of (books : List Book) : List ℤ :=
  books.filterMap (fun b => if b.Year = "" then none else pyInt b.Year)

/-- The oldest/newest sub-report. -/
inductive YearReport where
  | noYears
  | groups (oldest newest : List Book)
deriving DecidableEq

/-- The oldest/newest sub-report of `generate_reports`: when some year
parses, books are grouped by string equality with `str(min)` and
`str(max)`. -/
def year_report (books : List Book) : YearReport :=
  match years_of books with
  | [] => .noYears
  | y :: ys =>
    let lo := ys.foldl min y
    let hi := ys.foldl max y
    .groups (books.filter (fun b => b.Year == toString lo))
            (books.filter (fun b => b.Year == toString hi))

/-! Export and JSON import. -/

/-- A JSON object: association list of string keys and values. -/
abbrev JObj := List (String × String)

/-- First-match key lookup in a JSON object. -/
def jlookup (k : String) : JObj → Option String
  | [] => none
  | p :: rest => if p.1 = k then some p.2 else jlookup k rest

/-- JSON object written for one record by `export_library`. -/
def jsonOfBook (b : Book) : JObj :=
  [("Title", b.Title), ("Author", b.Author), ("Year", b.Year),
   ("Genre", b.Genre), ("Rating", b.Rating)]

/-- The JSON array written by `export_library`. -/
def booksToJson (books : List Book) : List JObj :=
  books.map jsonOfBook

/-- Record accepted from one imported JSON object: requires Title and
Author keys, the rest default to the empty string. -/
def bookOfJson (o : JObj) : Option Book :=
  match jlookup "Title" o, jlookup "Author" o with
  | some t, some a =>
    some ⟨t, a, (jlookup "Year" o).getD "", (jlookup "Genre" o).getD "",
          (jlookup "Rating" o).getD ""⟩
  | _, _ => none

/-- The text-format lines written for one record by `export_library`. -/
def book_txt_lines (b : Book) : List String :=
  ["Title: " ++ b.Title, "Author: " ++ b.Author, "Year: " ++ b.Year,
   "Genre: " ++ b.Genre, "Rating: " ++ b.Rating, ""]

/-- The text file written by `export_library`. -/
def books_txt (books : List Book) : List String :=
  books.foldr (fun b acc => book_txt_lines b ++ acc) []

/-- A file written by `export_library`. -/
inductive ExpFile where
  | json (objs : List JObj)
  | txt (lines : List String)
deriving DecidableEq

/-- Observable outcome of one `export_library` run: the store after the
initial load, whether the empty-library message was shown, the file
written (if any) and how many prompts were issued. -/
structure ExpResult where
  store : Store
  saidEmpty : Bool
  written : Option (String × ExpFile)
  promptsUsed : ℕ
deriving DecidableEq

/-- Model of `export_library`: bail out before any prompt on an empty
collection, validate format and filename, then write the export file.
The library store itself is only read. -/
def export_library (store : Store) (inputs : List String) : Option ExpResult :=
  let lb := load_books store
  if lb.2.isEmpty then some ⟨lb.1, true, none, 0⟩
  else
    match inputs with
    | [] => none
    | f :: rest =>
      let fmt := pyLower (pyStrip f)
      if fmt ≠ "json" ∧ fmt ≠ "txt" then some ⟨lb.1, false, none, 1⟩
      else
        match rest with
        | [] => none
        | fn :: _ =>
          let filename := pyStrip fn
          if filename = "" then some ⟨lb.1, false, none, 2⟩
          else
            some ⟨lb.1, false,
                  some (filename,
                        if fmt = "json" then ExpFile.json (booksToJson lb.2)
                        else ExpFile.txt (books_txt lb.2)),
                  2⟩

/-- Model of the JSON branch of the library's file-import handler:
records lacking Title or Author are skipped, the rest are appended to
the existing collection, which is persisted; returns the new store and
the reported count of records added. -/
def library_import_json (store : Store) (objs : List JObj) : Store × ℕ :=
  let lb := load_books store
  let newBooks := objs.filterMap bookOfJson
  (save_books (lb.2 ++ newBooks), newBooks.length)

/-! Helper lemmas. -/

/-- The empty needle is a sublist of every character list. -/
theorem isSubList_nil (hay : List Char) : isSubList [] hay = true := by
  cases hay <;> simp [isSubList, isPrefixList, List.isEmpty]

/-- The empty string is a substring of every string. -/
theorem isSubstr_empty (s : String) : isSubstr "" s = true :=
  isSubList_nil s.data

/-- Reading a row written for a record recovers the record. -/
theorem bookOfRow_rowOfBook (b : Book) : bookOfRow (rowOfBook b) = b := rfl

theorem map_bookOfRow_rowOfBook (bs : List Book) :
    (bs.map rowOfBook).map bookOfRow = bs := by
  induction bs with
  | nil => rfl
  | cons b t ih => simp only [List.map_cons, ih, bookOfRow_rowOfBook]

/-- Loading a store just saved returns exactly the saved records. -/
theorem load_save (bs : List Book) : load_books (save_books bs) = (save_books bs, bs) := by
  show (save_books bs, (bs.map rowOfBook).map bookOfRow) = (save_books bs, bs)
  rw [map_bookOfRow_rowOfBook]

/-- Importing the JSON object written for a record recovers the record. -/
theorem bookOfJson_jsonOfBook (b : Book) : bookOfJson (jsonOfBook b) = some b := rfl

/-- The JSON import filter is a left inverse of the JSON export map. -/
theorem filterMap_booksToJson (bs : List Book) :
    (booksToJson bs).filterMap bookOfJson = bs := by
  induction bs with
  | nil => rfl
  | cons b t ih =>
    simp only [booksToJson, List.map_cons, List.filterMap_cons, bookOfJson_jsonOfBook]
    simpa [booksToJson] using ih

/-- The rating fold of `generate_reports` accumulates exactly the sum
and the count of the parseable, non-empty ratings. -/
theorem rating_data_go (books : List Book) (t : ℚ) (c : ℕ) :
    books.foldl rating_step (t, c) = (t + (rated_list books).sum, c + (rated_list books).length) := by
  induction books generalizing t c with
  | nil => simp [rated_list]
  | cons b bs ih =>
    by_cases hb : b.Rating = ""
    · simp [rating_step, hb, ih, rated_list, List.filterMap_cons]
    · cases hf : pyFloat b.Rating with
      | none => simp [rating_step, hb, hf, ih, rated_list, List.filterMap_cons]
      | some v =>
        have h1 : rating_step (t, c) b = (t + v, c + 1) := by
          simp [rating_step, hb, hf]
        have h2 : rated_list (b :: bs) = v :: rated_list bs := by
          simp [rated_list, List.filterMap_cons, hb, hf]
        rw [List.foldl_cons, h1, ih, h2]
        simp only [List.sum_cons, List.length_cons, Prod.mk.injEq]
        constructor
        · ring
        · omega

/-! Claim theorems. -/

/-- C1: the Add operation does NOT always persist a Year that is empty
or in range.  The year loop assigns the parsed integer to `year`
before the range check and the out-of-range branch keeps it, so an
out-of-range year followed by a blank input is persisted: with
wall-clock year 2026, the inputs 9999 then blank append a record whose
Year field is the out-of-range integer string "9999". -/
theorem add_book_persists_out_of_range_year :
    add_book 2026 none ["Dune", "Herbert", "9999", "", "Sci-Fi", ""] =
      some (⟨"Dune", "Herbert", "9999", "Sci-Fi", ""⟩,
            save_books [⟨"Dune", "Herbert", "9999", "Sci-Fi", ""⟩])
    ∧ pyInt "9999" = some 9999 ∧ ¬((9999 : ℤ) ≤ 2026) := by
  decide

/-- C2 counterexample: Delete's numeric path reports the number of
valid indices, not the number of records removed.  With two identical
records both matched and the single selection "1", both records are
removed (value-equality) but the report says 1. -/
theorem delete_numeric_reported_count_cex :
    delete_choice [⟨"Dune", "Herbert", "", "", ""⟩, ⟨"Dune", "Herbert", "", "", ""⟩]
        [⟨"Dune", "Herbert", "", "", ""⟩, ⟨"Dune", "Herbert", "", "", ""⟩] "1"
      = .deleted [] 1
    ∧ ([⟨"Dune", "Herbert", "", "", ""⟩, ⟨"Dune", "Herbert", "", "", ""⟩] : List Book).length
        - ([] : List Book).length = 2
    ∧ (1 : ℕ) ≠ 2 := by
  decide

/-- C3 counterexample: the oldest/newest groups compare the Year field
with `str(min)` by string equality, so a record whose Year parses to
the minimum but is written differently is excluded: a collection whose
only record has Year "01950" (which parses to 1950, the minimum
parseable year) produces an EMPTY oldest group. -/
theorem year_report_excludes_padded_year_cex :
    year_report [⟨"A", "B", "01950", "", ""⟩] = .groups [] []
    ∧ pyInt "01950" = some 1950
    ∧ years_of [⟨"A", "B", "01950", "", ""⟩] = [1950] := by
  decide

/-- C7: on an existing store, List and Search leave the persisted
store unchanged, whatever its contents and whatever the search input. -/
theorem list_search_leave_store_unchanged (rows : List (List String)) (raw : String) :
    (list_books (some rows)).1 = some rows ∧ (search_books raw (some rows)).1 = some rows :=
  ⟨rfl, rfl⟩

/-- C8: a missing store is created containing only the header row (the
same store `save` writes for the empty collection) and the empty
sequence is returned; an existing store with the standard header
yields its data rows, in file order, as five-field records. -/
theorem load_books_missing_and_existing (rows : List (List String))
    (_h : ∀ r ∈ rows, r.length = 5) :
    load_books none = (save_books [], [])
    ∧ save_books [] = some [header]
    ∧ load_books (some (header :: rows)) = (some (header :: rows), rows.map bookOfRow) :=
  ⟨rfl, rfl, rfl⟩

theorem load_books_missing_and_existing_witness :
    load_books none = (save_books [], [])
    ∧ save_books [] = some [header]
    ∧ load_books (some (header :: [["Dune", "Herbert", "1965", "Sci-Fi", "4.5"]]))
        = (some (header :: [["Dune", "Herbert", "1965", "Sci-Fi", "4.5"]]),
           [⟨"Dune", "Herbert", "1965", "Sci-Fi", "4.5"⟩]) :=
  load_books_missing_and_existing [["Dune", "Herbert", "1965", "Sci-Fi", "4.5"]] (by decide)

/-- C10: when the loaded collection is empty, Export reports the empty
library and returns before either prompt; nothing is written. -/
theorem export_empty_returns_before_prompts (store : Store) (inputs : List String)
    (h : (load_books store).2 = []) :
    export_library store inputs = some ⟨(load_books store).1, true, none, 0⟩ := by
  have hp : load_books store = ((load_books store).1, []) := by
    rw [← h]
  unfold export_library
  rw [hp]
  rfl

theorem export_empty_returns_before_prompts_witness :
    export_library (some [header]) ["json", "lib.json"] = some ⟨some [header], true, none, 0⟩ :=
  export_empty_returns_before_prompts (some [header]) ["json", "lib.json"] (by decide)

/-- C9: a search whose input strips to the empty string matches every
record, and the reported match count is the collection size. -/
theorem empty_search_term_matches_all (books : List Book) (raw : String)
    (h : pyStrip raw = "") :
    search_matches raw books = books
    ∧ (search_matches raw books).length = books.length := by
  have hall : ∀ b ∈ books, search_match (pyLower (pyStrip raw)) b = true := by
    intro b _
    rw [h]
    show search_match "" b = true
    simp [search_match, isSubstr_empty]
  have heq : search_matches raw books = books := List.filter_eq_self.mpr hall
  exact ⟨heq, by rw [heq]⟩

theorem empty_search_term_matches_all_witness :
    search_matches "   " ([⟨"Dune", "Herbert", "1965", "Sci-Fi", "4.5"⟩] : List Book)
        = ([⟨"Dune", "Herbert", "1965", "Sci-Fi", "4.5"⟩] : List Book)
    ∧ (search_matches "   " ([⟨"Dune", "Herbert", "1965", "Sci-Fi", "4.5"⟩] : List Book)).length
        = ([⟨"Dune", "Herbert", "1965", "Sci-Fi", "4.5"⟩] : List Book).length :=
  empty_search_term_matches_all _ "   " (by decide)

/-- C4: exporting a non-empty collection in JSON format writes exactly
the five-field objects of the collection, and importing that JSON into
an empty store persists a collection equal to the original, record for
record and in the original (append) order. -/
theorem export_import_json_round_trip (books : List Book) (h : books ≠ []) :
    export_library (save_books books) ["json", "out"]
      = some ⟨save_books books, false, some ("out", .json (booksToJson books)), 2⟩
    ∧ library_import_json (save_books []) (booksToJson books) = (save_books books, books.length)
    ∧ (load_books (library_import_json (save_books []) (booksToJson books)).1).2 = books := by
  have h2 : library_import_json (save_books []) (booksToJson books)
      = (save_books books, books.length) := by
    unfold library_import_json
    rw [load_save]
    simp [filterMap_booksToJson]
  refine ⟨?_, h2, ?_⟩
  · unfold export_library
    rw [load_save]
    have hne : books.isEmpty = false := by
      cases books with
      | nil => exact absurd rfl h
      | cons a l => rfl
    simp only [hne]
    rfl
  · rw [h2]
    show (load_books (save_books books)).2 = books
    rw [load_save]

theorem export_import_json_round_trip_witness :
    export_library (save_books ([⟨"Dune", "Herbert", "1965", "Sci-Fi", "4.5"⟩] : List Book))
        ["json", "out"]
      = some ⟨save_books ([⟨"Dune", "Herbert", "1965", "Sci-Fi", "4.5"⟩] : List Book), false,
              some ("out", .json (booksToJson ([⟨"Dune", "Herbert", "1965", "Sci-Fi", "4.5"⟩] : List Book))), 2⟩
    ∧ library_import_json (save_books [])
        (booksToJson ([⟨"Dune", "Herbert", "1965", "Sci-Fi", "4.5"⟩] : List Book))
      = (save_books ([⟨"Dune", "Herbert", "1965", "Sci-Fi", "4.5"⟩] : List Book), 1)
    ∧ (load_books (library_import_json (save_books [])
        (booksToJson ([⟨"Dune", "Herbert", "1965", "Sci-Fi", "4.5"⟩] : List Book))).1).2
      = ([⟨"Dune", "Herbert", "1965", "Sci-Fi", "4.5"⟩] : List Book) :=
  export_import_json_round_trip [⟨"Dune", "Herbert", "1965", "Sci-Fi", "4.5"⟩] (by decide)

/-- C5: a record is a Search match exactly when the folded term is a
substring of the folded value of at least one of the five fields,
whereas a record is a Delete match exactly when the folded term is a
substring of the folded Title alone. -/
theorem search_all_fields_delete_title_only (raw : String) (books : List Book) (b : Book) :
    (b ∈ search_matches raw books ↔ b ∈ books ∧
      ∃ f ∈ ([b.Title, b.Author, b.Year, b.Genre, b.Rating] : List String),
        isSubstr (pyLower (pyStrip raw)) (pyLower f) = true)
    ∧ (b ∈ delete_matches raw books ↔ b ∈ books ∧
        isSubstr (pyLower (pyStrip raw)) (pyLower b.Title) = true) := by
  constructor
  · unfold search_matches
    rw [List.mem_filter]
    constructor
    · rintro ⟨hb, hm⟩
      refine ⟨hb, ?_⟩
      rw [search_match] at hm
      simp only [Bool.or_eq_true] at hm
      rcases hm with ((((h1 | h2) | h3) | h4) | h5)
      · exact ⟨b.Title, by simp, h1⟩
      · exact ⟨b.Author, by simp, h2⟩
      · exact ⟨b.Year, by simp, h3⟩
      · exact ⟨b.Genre, by simp, h4⟩
      · exact ⟨b.Rating, by simp, h5⟩
    · rintro ⟨hb, f, hf, hsub⟩
      refine ⟨hb, ?_⟩
      rw [search_match]
      simp only [Bool.or_eq_true]
      simp only [List.mem_cons, List.not_mem_nil, or_false] at hf
      rcases hf with rfl | rfl | rfl | rfl | rfl <;> tauto
  · unfold delete_matches
    rw [List.mem_filter]

/-- The rating fold computes the sum and count of the parseable,
non-empty ratings. -/
theorem rating_data_eq (books : List Book) :
    rating_data books = ((rated_list books).sum, (rated_list books).length) := by
  have hgo := rating_data_go books 0 0
  simpa [rating_data] using hgo

/-- The reported average is the mean of the parseable ratings, or 0
when there are none. -/
theorem avg_rating_eq (books : List Book) :
    avg_rating books = (if (rated_list books).length = 0 then 0
      else (rated_list books).sum / ((rated_list books).length : ℚ)) := by
  unfold avg_rating
  rw [rating_data_eq]
  by_cases h0 : (rated_list books).length = 0
  · simp [h0]
  · have hpos : 0 < (rated_list books).length := Nat.pos_of_ne_zero h0
    simp [h0, hpos]

/-- C6: the reported average rating is the arithmetic mean of exactly
the parseable, non-empty Rating values (0 when there are none), and the
reported count is the number of such values; on the spec's example the
mean is 3.75 from 2 rated books. -/
theorem average_rating_spec (books : List Book) :
    rated_count books = (rated_list books).length
    ∧ avg_rating books = (if (rated_list books).length = 0 then 0
        else (rated_list books).sum / ((rated_list books).length : ℚ))
    ∧ avg_rating ([⟨"A", "a", "", "", "4.5"⟩, ⟨"B", "b", "", "", ""⟩,
        ⟨"C", "c", "", "", "bad"⟩, ⟨"D", "d", "", "", "3.0"⟩] : List Book) = 15 / 4
    ∧ rated_count ([⟨"A", "a", "", "", "4.5"⟩, ⟨"B", "b", "", "", ""⟩,
        ⟨"C", "c", "", "", "bad"⟩, ⟨"D", "d", "", "", "3.0"⟩] : List Book) = 2 := by
  have hrl : rated_list ([⟨"A", "a", "", "", "4.5"⟩, ⟨"B", "b", "", "", ""⟩,
      ⟨"C", "c", "", "", "bad"⟩, ⟨"D", "d", "", "", "3.0"⟩] : List Book)
      = [decValue (45, 1), decValue (30, 1)] := rfl
  refine ⟨by rw [rated_count, rating_data_eq], avg_rating_eq books, ?_, ?_⟩
  · rw [avg_rating_eq, hrl]
    norm_num [decValue]
  · rw [rated_count, rating_data_eq, hrl]
    rfl

/-- C3 (amended): when some Year parses, the oldest group is exactly
the records whose Year field is the decimal string of the minimum
parseable year, and the newest group exactly those whose Year field is
the decimal string of the maximum (all ties included); when no Year
parses, the report states that no years are available.  (Records whose
Year parses to the extreme but is written differently, e.g. "01950",
are excluded — see the counterexample.) -/
theorem year_report_groups_by_year_string (books : List Book) (y : ℤ) (ys : List ℤ)
    (h : years_of books = y :: ys) (lo hi : ℤ)
    (hlo : lo = ys.foldl min y) (hhi : hi = ys.foldl max y) :
    year_report books = .groups (books.filter (fun b => b.Year == toString lo))
                                (books.filter (fun b => b.Year == toString hi))
    ∧ (∀ b, b ∈ books.filter (fun b => b.Year == toString lo) ↔ b ∈ books ∧ b.Year = toString lo)
    ∧ (∀ b, b ∈ books.filter (fun b => b.Year == toString hi) ↔ b ∈ books ∧ b.Year = toString hi)
    ∧ (∀ bks : List Book, years_of bks = [] → year_report bks = .noYears) := by
  subst hlo
  subst hhi
  refine ⟨?_, ?_, ?_, ?_⟩
  · unfold year_report
    rw [h]
  · intro b
    simp [List.mem_filter]
  · intro b
    simp [List.mem_filter]
  · intro bks hb
    unfold year_report
    rw [hb]

theorem year_report_groups_by_year_string_witness :
    year_report ([⟨"A", "a", "1950", "", ""⟩, ⟨"B", "b", "1950", "", ""⟩,
        ⟨"C", "c", "2000", "", ""⟩] : List Book)
      = .groups (([⟨"A", "a", "1950", "", ""⟩, ⟨"B", "b", "1950", "", ""⟩,
          ⟨"C", "c", "2000", "", ""⟩] : List Book).filter (fun b => b.Year == toString (1950 : ℤ)))
               (([⟨"A", "a", "1950", "", ""⟩, ⟨"B", "b", "1950", "", ""⟩,
          ⟨"C", "c", "2000", "", ""⟩] : List Book).filter (fun b => b.Year == toString (2000 : ℤ)))
    ∧ (∀ b, b ∈ ([⟨"A", "a", "1950", "", ""⟩, ⟨"B", "b", "1950", "", ""⟩,
          ⟨"C", "c", "2000", "", ""⟩] : List Book).filter (fun b => b.Year == toString (1950 : ℤ))
        ↔ b ∈ ([⟨"A", "a", "1950", "", ""⟩, ⟨"B", "b", "1950", "", ""⟩,
          ⟨"C", "c", "2000", "", ""⟩] : List Book) ∧ b.Year = toString (1950 : ℤ))
    ∧ (∀ b, b ∈ ([⟨"A", "a", "1950", "", ""⟩, ⟨"B", "b", "1950", "", ""⟩,
          ⟨"C", "c", "2000", "", ""⟩] : List Book).filter (fun b => b.Year == toString (2000 : ℤ))
        ↔ b ∈ ([⟨"A", "a", "1950", "", ""⟩, ⟨"B", "b", "1950", "", ""⟩,
          ⟨"C", "c", "2000", "", ""⟩] : List Book) ∧ b.Year = toString (2000 : ℤ))
    ∧ (∀ bks : List Book, years_of bks = [] → year_report bks = .noYears) :=
  year_report_groups_by_year_string _ 1950 [1950, 2000] (by decide) 1950 2000
    (by decide) (by decide)

/-- C2 (amended): in Delete's numeric path, when every comma-separated
token parses as an integer, an index is kept exactly when it lies in
1..len(matchList); if none is kept the handler re-prompts without
touching the store; otherwise exactly the records value-equal to some
selected match are removed from the full collection, the remainder is
persisted, and the REPORTED count is the number of valid indices
(which can exceed the number of records actually removed — see the
counterexample). -/
theorem delete_numeric_path (books matchList : List Book) (raw : String) (ns : List ℤ)
    (h1 : pyLower (pyStrip raw) ≠ "cancel") (h2 : pyLower (pyStrip raw) ≠ "all")
    (h3 : intTokens (pySplitComma (pyLower (pyStrip raw))) = some ns)
    (valid : List ℤ)
    (hv : valid = (ns.map (fun n => n - 1)).filter
        (fun i => decide (0 ≤ i) && decide (i < (matchList.length : ℤ))))
    (toDel : List Book)
    (ht : toDel = valid.filterMap (fun i => matchList.get? i.toNat)) :
    (∀ i : ℤ, i ∈ valid ↔ ∃ k ∈ ns, i = k - 1 ∧ 1 ≤ k ∧ k ≤ (matchList.length : ℤ))
    ∧ (valid = [] → delete_choice books matchList raw = .noValid
        ∧ ∀ store rest, delete_loop store books matchList (raw :: rest)
            = delete_loop store books matchList rest)
    ∧ (valid ≠ [] →
        delete_choice books matchList raw
          = .deleted (books.filter (fun b => !decide (b ∈ toDel))) valid.length
        ∧ (∀ b, b ∈ books.filter (fun b => !decide (b ∈ toDel)) ↔ b ∈ books ∧ b ∉ toDel)
        ∧ ∀ store rest, delete_loop store books matchList (raw :: rest)
            = some (save_books (books.filter (fun b => !decide (b ∈ toDel))), some valid.length)) := by
  subst hv
  subst ht
  have hd : delete_choice books matchList raw
      = if ((ns.map (fun n => n - 1)).filter
            (fun i => decide (0 ≤ i) && decide (i < (matchList.length : ℤ)))) = []
        then .noValid
        else .deleted (books.filter (fun b => !decide (b ∈ ((ns.map (fun n => n - 1)).filter
            (fun i => decide (0 ≤ i) && decide (i < (matchList.length : ℤ)))).filterMap
            (fun i => matchList.get? i.toNat))))
          ((ns.map (fun n => n - 1)).filter
            (fun i => decide (0 ≤ i) && decide (i < (matchList.length : ℤ)))).length := by
    simp only [delete_choice]
    rw [if_neg h1, if_neg h2, h3]
  refine ⟨?_, ?_, ?_⟩
  · intro i
    simp only [List.mem_filter, List.mem_map, Bool.and_eq_true, decide_eq_true_eq]
    constructor
    · rintro ⟨⟨k, hk, rfl⟩, h0, hlen⟩
      exact ⟨k, hk, rfl, by omega, by omega⟩
    · rintro ⟨k, hk, rfl, hk1, hk2⟩
      exact ⟨⟨k, hk, rfl⟩, by omega, by omega⟩
  · intro hnil
    constructor
    · rw [hd, if_pos hnil]
    · intro store rest
      simp only [delete_loop]
      rw [hd, if_pos hnil]
  · intro hne
    refine ⟨?_, ?_, ?_⟩
    · rw [hd, if_neg hne]
    · intro b
      simp [List.mem_filter]
    · intro store rest
      simp only [delete_loop]
      rw [hd, if_neg hne]

theorem delete_numeric_path_witness :
    (∀ i : ℤ, i ∈ ([1] : List ℤ) ↔ ∃ k ∈ ([2, 5] : List ℤ), i = k - 1 ∧ 1 ≤ k
        ∧ k ≤ (([⟨"a", "x", "", "", ""⟩, ⟨"b", "y", "", "", ""⟩,
            ⟨"c", "z", "", "", ""⟩] : List Book).length : ℤ))
    ∧ (([1] : List ℤ) = [] →
        delete_choice ([⟨"a", "x", "", "", ""⟩, ⟨"b", "y", "", "", ""⟩, ⟨"c", "z", "", "", ""⟩] : List Book)
            ([⟨"a", "x", "", "", ""⟩, ⟨"b", "y", "", "", ""⟩, ⟨"c", "z", "", "", ""⟩] : List Book) "2, 5"
          = .noValid
        ∧ ∀ store rest,
            delete_loop store ([⟨"a", "x", "", "", ""⟩, ⟨"b", "y", "", "", ""⟩, ⟨"c", "z", "", "", ""⟩] : List Book)
              ([⟨"a", "x", "", "", ""⟩, ⟨"b", "y", "", "", ""⟩, ⟨"c", "z", "", "", ""⟩] : List Book) ("2, 5" :: rest)
            = delete_loop store ([⟨"a", "x", "", "", ""⟩, ⟨"b", "y", "", "", ""⟩, ⟨"c", "z", "", "", ""⟩] : List Book)
              ([⟨"a", "x", "", "", ""⟩, ⟨"b", "y", "", "", ""⟩, ⟨"c", "z", "", "", ""⟩] : List Book) rest)
    ∧ (([1] : List ℤ) ≠ [] →
        delete_choice ([⟨"a", "x", "", "", ""⟩, ⟨"b", "y", "", "", ""⟩, ⟨"c", "z", "", "", ""⟩] : List Book)
            ([⟨"a", "x", "", "", ""⟩, ⟨"b", "y", "", "", ""⟩, ⟨"c", "z", "", "", ""⟩] : List Book) "2, 5"
          = .deleted (([⟨"a", "x", "", "", ""⟩, ⟨"b", "y", "", "", ""⟩, ⟨"c", "z", "", "", ""⟩] : List Book).filter
              (fun b => !decide (b ∈ ([⟨"b", "y", "", "", ""⟩] : List Book)))) ([1] : List ℤ).length
        ∧ (∀ b, b ∈ ([⟨"a", "x", "", "", ""⟩, ⟨"b", "y", "", "", ""⟩, ⟨"c", "z", "", "", ""⟩] : List Book).filter
              (fun b => !decide (b ∈ ([⟨"b", "y", "", "", ""⟩] : List Book)))
            ↔ b ∈ ([⟨"a", "x", "", "", ""⟩, ⟨"b", "y", "", "", ""⟩, ⟨"c", "z", "", "", ""⟩] : List Book)
              ∧ b ∉ ([⟨"b", "y", "", "", ""⟩] : List Book))
        ∧ ∀ store rest,
            delete_loop store ([⟨"a", "x", "", "", ""⟩, ⟨"b", "y", "", "", ""⟩, ⟨"c", "z", "", "", ""⟩] : List Book)
              ([⟨"a", "x", "", "", ""⟩, ⟨"b", "y", "", "", ""⟩, ⟨"c", "z", "", "", ""⟩] : List Book) ("2, 5" :: rest)
            = some (save_books (([⟨"a", "x", "", "", ""⟩, ⟨"b", "y", "", "", ""⟩, ⟨"c", "z", "", "", ""⟩] : List Book).filter
                (fun b => !decide (b ∈ ([⟨"b", "y", "", "", ""⟩] : List Book)))), some ([1] : List ℤ).length)) :=
  delete_numeric_path
    [⟨"a", "x", "", "", ""⟩, ⟨"b", "y", "", "", ""⟩, ⟨"c", "z", "", "", ""⟩]
    [⟨"a", "x", "", "", ""⟩, ⟨"b", "y", "", "", ""⟩, ⟨"c", "z", "", "", ""⟩]
    "2, 5" [2, 5] (by decide) (by decide) (by decide) [1] (by decide)
    [⟨"b", "y", "", "", ""⟩] (by decide)
